import Mathlib

/-!
Shallow embedding of the eos-ms-mcp-server core: the upstream HTTP client
adapter (src/services/eosApiService.ts), the MCP tool registry handlers
(src/mcp/tools.ts) and the validating REST routes (src/rest/server.ts).

The ambient HTTP exchange performed by axios is abstracted as an explicit
`HttpOutcome` argument: a 2xx response carrying a parsed body, a non-2xx
response carrying the upstream status and the optional message of the error
body, or a pure network failure (connection error / timeout) carrying the
error message. The axios response interceptor of the adapter constructor is
the function `interceptResponse`. The adapter instance state (the stored
bearer token) is threaded explicitly as `AdapterState`.

TypeScript type annotations are erased at run time, so request fields that
arrive as JSON are modelled as `Option String` (absent or present); JS
truthiness of such a field is `truthyStr` (absent and the empty string are
falsy). The JS `x || d` default idiom on strings and numbers is `jsOrStr`,
`jsOrOptStr` and `jsOrNat` (0 and "" are falsy).
-/

/-- JS truthiness of a possibly-absent string field: `undefined` and `""` are falsy. -/
def truthyStr : Option String → Bool
  | none => false
  | some s => s != ""

/-- JS `s || d` for strings: the empty string falls back to the default. -/
def jsOrStr (s d : String) : String :=
  if s = "" then d else s

/-- JS `s?.m || d`: an absent or empty message falls back to the default. -/
def jsOrOptStr (s : Option String) (d : String) : String :=
  match s with
  | none => d
  | some s => jsOrStr s d

/-- JS `n || d` for numbers: 0 is falsy and falls back to the default. -/
def jsOrNat (n d : Nat) : Nat :=
  if n = 0 then d else n

/-- JS template interpolation of a possibly-absent string (`undefined` prints as "undefined"). -/
def jsShow : Option String → String
  | none => "undefined"
  | some s => s

/-! ## Data model (src/types/index.ts) -/

/-- The user record inside a login response (types/index.ts, LoginResponse.data.user). -/
structure LoginUser where
  id : String
  username : String
  email : String
  role : String
deriving Repr, DecidableEq

/-- The data field of a login response: the bearer token and the user record. -/
structure LoginData where
  token : String
  user : LoginUser
deriving Repr, DecidableEq

/-- LoginResponse (types/index.ts): the upstream envelope for /user/login. -/
structure LoginResponse where
  success : Bool
  message : Option String := none
  data : Option LoginData := none
  error : Option String := none
deriving Repr, DecidableEq

/-- ApiResponse<T> (types/index.ts): the generic upstream envelope. -/
structure ApiResponse (α : Type) where
  success : Bool
  message : Option String := none
  data : Option α := none
  error : Option String := none
deriving Repr, DecidableEq

/-- User status union 'active' | 'inactive' (types/index.ts). -/
inductive UserStatus
  | active
  | inactive
deriving Repr, DecidableEq

/-- User (types/index.ts): opaque passthrough record. -/
structure User where
  id : String
  username : String
  email : String
  role : String
  status : UserStatus
  createdAt : String
  updatedAt : String
deriving Repr, DecidableEq

/-- LoginRequest (types/index.ts). The TS interface declares both fields as
required strings, but the annotation is erased at run time: the REST route
receives `req.body` and checks the fields for truthiness, so they are
modelled as possibly absent. -/
structure LoginRequest where
  username : Option String
  password : Option String
deriving Repr, DecidableEq

/-- InviteUserRequest (types/index.ts). email/role are declared required in
TS but may be absent in the run-time JSON (the annotation is erased); the
optional firstName/lastName are Option as declared. -/
structure InviteUserRequest where
  email : Option String
  role : Option String
  firstName : Option String := none
  lastName : Option String := none
deriving Repr, DecidableEq

/-- EOSApiError (types/index.ts): the uniform error raised by the adapter.
The optional raw response payload field is not modelled (no claim inspects it). -/
structure EOSApiError where
  message : String
  statusCode : Nat
deriving Repr, DecidableEq

/-- Outcome of one upstream HTTP exchange, as seen by the axios response
interceptor: a 2xx response with a parsed body, a non-2xx response with its
status and the optional `message` field of the error body, or a pure network
failure (connection error / timeout) with the transport error message. -/
inductive HttpOutcome (α : Type)
  | ok (body : α)
  | httpError (status : Nat) (bodyMessage : Option String)
  | networkError (message : String)
deriving Repr, DecidableEq

/-- Adapter instance state: the stored bearer token (eosApiService.ts, `authToken`). -/
structure AdapterState where
  authToken : Option String
deriving Repr, DecidableEq

namespace EOSApiService

/-- The response interceptor (eosApiService.ts constructor): a non-2xx
response becomes `EOSApiError(body.message || 'API request failed', status)`,
a pure network failure becomes `EOSApiError(error.message || 'Network error', 0)`. -/
def interceptResponse {α : Type} : HttpOutcome α → Except EOSApiError α
  | .ok body => .ok body
  | .httpError status bodyMessage =>
      .error { message := jsOrOptStr bodyMessage "API request failed", statusCode := status }
  | .networkError message =>
      .error { message := jsOrStr message "Network error", statusCode := 0 }

/-- setAuthToken (eosApiService.ts). -/
def setAuthToken (token : String) (_st : AdapterState) : AdapterState :=
  { authToken := some token }

/-- clearAuthToken (eosApiService.ts). -/
def clearAuthToken (_st : AdapterState) : AdapterState :=
  { authToken := none }

/-- login (eosApiService.ts): POST /user/login; on a 2xx response, if
`response.data.success && response.data.data?.token` is truthy the token is
stored via setAuthToken, and the body is returned unchanged. A transport
failure is the interceptor's EOSApiError, rethrown by the catch branch
(`error instanceof EOSApiError`); the fallback `EOSApiError('Login failed', 500)`
branch is unreachable for transport outcomes since the interceptor wraps them all. -/
def login (_credentials : LoginRequest) (outcome : HttpOutcome LoginResponse)
    (st : AdapterState) : Except EOSApiError LoginResponse × AdapterState :=
  match interceptResponse outcome with
  | .error e => (.error e, st)
  | .ok body =>
      match body.data with
      | some d =>
          if body.success && d.token != "" then (.ok body, setAuthToken d.token st)
          else (.ok body, st)
      | none => (.ok body, st)

/-- getCurrentUser (eosApiService.ts): GET /user/profile; returns
`response.data.data!`. The TS non-null assertion is erased at run time, so a
2xx body without a data field resolves with `undefined`: the result is an
`Option User`. -/
def getCurrentUser (outcome : HttpOutcome (ApiResponse User))
    (st : AdapterState) : Except EOSApiError (Option User) × AdapterState :=
  ((interceptResponse outcome).map (fun response => response.data), st)

/-- getUsers (eosApiService.ts): GET /users; returns `response.data.data || []`. -/
def getUsers (outcome : HttpOutcome (ApiResponse (List User)))
    (st : AdapterState) : Except EOSApiError (List User) × AdapterState :=
  ((interceptResponse outcome).map (fun response => response.data.getD []), st)

/-- inviteUser (eosApiService.ts): POST /users/invite; returns `response.data`
unchanged. The request content is forwarded into the HTTP exchange (abstracted
by `outcome`) without any local inspection or role validation. -/
def inviteUser {α : Type} (_inviteData : InviteUserRequest)
    (outcome : HttpOutcome (ApiResponse α))
    (st : AdapterState) : Except EOSApiError (ApiResponse α) × AdapterState :=
  (interceptResponse outcome, st)

/-- updateUserStatus (eosApiService.ts): PATCH /users/:userId/status. The
arguments are forwarded into the HTTP exchange without local inspection. -/
def updateUserStatus {α : Type} (_userId _status : Option String)
    (outcome : HttpOutcome (ApiResponse α))
    (st : AdapterState) : Except EOSApiError (ApiResponse α) × AdapterState :=
  (interceptResponse outcome, st)

/-- deleteUser (eosApiService.ts): DELETE /users/:userId. -/
def deleteUser {α : Type} (_userId : Option String)
    (outcome : HttpOutcome (ApiResponse α))
    (st : AdapterState) : Except EOSApiError (ApiResponse α) × AdapterState :=
  (interceptResponse outcome, st)

/-- healthCheck (eosApiService.ts): GET /health inside try/catch; any thrown
interceptor error collapses to false, a 2xx response yields true. Total: the
return type is Bool, never an error. -/
def healthCheck (outcome : HttpOutcome Unit)
    (st : AdapterState) : Bool × AdapterState :=
  match interceptResponse outcome with
  | .ok _ => (true, st)
  | .error _ => (false, st)

end EOSApiService

/-! ## MCP tool registry handlers (src/mcp/tools.ts)

Each handler wraps its adapter call in try/catch; an EOSApiError thrown by the
adapter is converted to `{success:false, message: error.message || default,
error: error.statusCode || 500}`. Each handler result is paired with the
number of adapter calls it performed (always 1: no handler validates its
arguments locally before calling the adapter). -/

/-- The settled value a tool handler returns: the `{success:true, message, data}`
or `{success:false, message, error}` envelope. -/
inductive ToolResult (δ : Type)
  | success (message : String) (data : δ)
  | failure (message : String) (error : Nat)
deriving Repr, DecidableEq

/-- The data field of the eos_login tool result:
`{user: result.data?.user, token: result.data?.token ? '***' : undefined}`. -/
structure LoginToolData where
  user : Option LoginUser
  token : Option String
deriving Repr, DecidableEq

/-- The data field of the eos_health_check tool result. The timestamp is the
ambient clock `new Date().toISOString()`, passed in explicitly. -/
structure HealthToolData where
  status : String
  timestamp : String
deriving Repr, DecidableEq

namespace MCPTools

/-- eos_login handler (tools.ts getLoginTool): calls the adapter, then returns
success with the user passed through and the token replaced by the placeholder
'***' when truthy (undefined otherwise); an EOSApiError becomes the failure
envelope with `error.statusCode || 500`. -/
def loginHandler (args : LoginRequest) (outcome : HttpOutcome LoginResponse)
    (st : AdapterState) : ToolResult LoginToolData × AdapterState × Nat :=
  match EOSApiService.login args outcome st with
  | (.ok result, st') =>
      (.success "Login successful"
        { user := result.data.map (fun d => d.user),
          token := result.data.bind (fun d => if d.token != "" then some "***" else none) },
       st', 1)
  | (.error e, st') =>
      (.failure (jsOrStr e.message "Login failed") (jsOrNat e.statusCode 500), st', 1)

/-- eos_get_current_user handler (tools.ts getCurrentUserTool). -/
def getCurrentUserHandler (outcome : HttpOutcome (ApiResponse User))
    (st : AdapterState) : ToolResult (Option User) × AdapterState × Nat :=
  match EOSApiService.getCurrentUser outcome st with
  | (.ok user, st') => (.success "User profile retrieved successfully" user, st', 1)
  | (.error e, st') =>
      (.failure (jsOrStr e.message "Failed to get user profile") (jsOrNat e.statusCode 500), st', 1)

/-- eos_get_users handler (tools.ts getUsersTool). -/
def getUsersHandler (outcome : HttpOutcome (ApiResponse (List User)))
    (st : AdapterState) : ToolResult (List User) × AdapterState × Nat :=
  match EOSApiService.getUsers outcome st with
  | (.ok users, st') =>
      (.success ("Retrieved " ++ toString users.length ++ " users") users, st', 1)
  | (.error e, st') =>
      (.failure (jsOrStr e.message "Failed to get users") (jsOrNat e.statusCode 500), st', 1)

/-- eos_invite_user handler (tools.ts getInviteUserTool): calls the adapter
directly with its arguments; no local check of email/role presence or of role
membership in the declared enum. -/
def inviteUserHandler {α : Type} (args : InviteUserRequest)
    (outcome : HttpOutcome (ApiResponse α))
    (st : AdapterState) : ToolResult (ApiResponse α) × AdapterState × Nat :=
  match EOSApiService.inviteUser args outcome st with
  | (.ok result, st') => (.success "User invited successfully" result, st', 1)
  | (.error e, st') =>
      (.failure (jsOrStr e.message "Failed to invite user") (jsOrNat e.statusCode 500), st', 1)

/-- eos_update_user_status handler (tools.ts getUpdateUserStatusTool): calls
the adapter directly; no local check of userId/status presence or validity. -/
def updateUserStatusHandler {α : Type} (userId status : Option String)
    (outcome : HttpOutcome (ApiResponse α))
    (st : AdapterState) : ToolResult (ApiResponse α) × AdapterState × Nat :=
  match EOSApiService.updateUserStatus userId status outcome st with
  | (.ok result, st') =>
      (.success ("User status updated to " ++ jsShow status) result, st', 1)
  | (.error e, st') =>
      (.failure (jsOrStr e.message "Failed to update user status") (jsOrNat e.statusCode 500), st', 1)

/-- eos_delete_user handler (tools.ts getDeleteUserTool). -/
def deleteUserHandler {α : Type} (userId : Option String)
    (outcome : HttpOutcome (ApiResponse α))
    (st : AdapterState) : ToolResult (ApiResponse α) × AdapterState × Nat :=
  match EOSApiService.deleteUser userId outcome st with
  | (.ok result, st') => (.success "User deleted successfully" result, st', 1)
  | (.error e, st') =>
      (.failure (jsOrStr e.message "Failed to delete user") (jsOrNat e.statusCode 500), st', 1)

/-- eos_health_check handler (tools.ts getHealthCheckTool). The adapter's
healthCheck is total, so the catch branch of this handler is unreachable. -/
def healthCheckHandler (now : String) (outcome : HttpOutcome Unit)
    (st : AdapterState) : ToolResult HealthToolData × AdapterState × Nat :=
  match EOSApiService.healthCheck outcome st with
  | (isHealthy, st') =>
      (.success (if isHealthy then "EOS API is healthy" else "EOS API is not responding")
        { status := if isHealthy then "healthy" else "unhealthy", timestamp := now },
       st', 1)

/-- The `required` list of the eos_invite_user tool's declared input schema. -/
def inviteUserToolRequired : List String := ["email", "role"]

/-- The `enum` of the `role` property in the eos_invite_user tool's declared
input schema: the only place in the code where the closed role set appears. -/
def inviteUserToolRoleEnum : List String := ["admin", "manager", "user"]

/-- The token field of a settled eos_login tool result (none on the failure
envelope, whose shape has no data field). -/
def tokenField : ToolResult LoginToolData → Option String
  | .success _ d => d.token
  | .failure _ _ => none

end MCPTools

/-! ## REST dispatcher routes (src/rest/server.ts)

Each route is a function of the parsed request body fields and the upstream
outcome; the result is the HTTP response together with the adapter state and
the number of adapter calls made (0 when local validation rejects the request
before the adapter is reached). -/

/-- The response a REST route sends: the 400 local-validation body
`{success:false, message}`, the 200 passthrough `res.json(result)`, or the
error branch `res.status(statusCode || 500).json({success:false, message, error})`. -/
inductive RestOut (β : Type)
  | badRequest (message : String)
  | passthrough (body : β)
  | upstreamError (status : Nat) (message : String) (error : Nat)
deriving Repr, DecidableEq

/-- The HTTP status a RestOut is sent with. -/
def RestOut.httpStatus {β : Type} : RestOut β → Nat
  | .badRequest _ => 400
  | .passthrough _ => 200
  | .upstreamError s _ _ => s

namespace RestApiServer

/-- POST /auth/login (server.ts): 400 when username or password is falsy,
otherwise the adapter login result is forwarded verbatim (`res.json(result)`),
raw token included; an EOSApiError maps to status `statusCode || 500`. -/
def restLogin (username password : Option String)
    (outcome : HttpOutcome LoginResponse)
    (st : AdapterState) : RestOut LoginResponse × AdapterState × Nat :=
  if !truthyStr username || !truthyStr password then
    (.badRequest "Username and password are required", st, 0)
  else
    match EOSApiService.login { username := username, password := password } outcome st with
    | (.ok result, st') => (.passthrough result, st', 1)
    | (.error e, st') =>
        (.upstreamError (jsOrNat e.statusCode 500) (jsOrStr e.message "Login failed")
          (jsOrNat e.statusCode 500), st', 1)

/-- POST /users/invite (server.ts): 400 when email or role is falsy (presence
only — no membership check of role against any enum), otherwise the request is
forwarded to the adapter. -/
def restInviteUser {α : Type} (email role firstName lastName : Option String)
    (outcome : HttpOutcome (ApiResponse α))
    (st : AdapterState) : RestOut (ApiResponse α) × AdapterState × Nat :=
  if !truthyStr email || !truthyStr role then
    (.badRequest "Email and role are required", st, 0)
  else
    match EOSApiService.inviteUser
        { email := email, role := role, firstName := firstName, lastName := lastName }
        outcome st with
    | (.ok result, st') => (.passthrough result, st', 1)
    | (.error e, st') =>
        (.upstreamError (jsOrNat e.statusCode 500) (jsOrStr e.message "Failed to invite user")
          (jsOrNat e.statusCode 500), st', 1)

/-- PATCH /users/:userId/status (server.ts): 400 unless the body's status is
truthy and contained in ['active','inactive']; otherwise forwarded. -/
def restUpdateUserStatus {α : Type} (userId : String) (status : Option String)
    (outcome : HttpOutcome (ApiResponse α))
    (st : AdapterState) : RestOut (ApiResponse α) × AdapterState × Nat :=
  if !truthyStr status || !(["active", "inactive"].contains (status.getD "")) then
    (.badRequest "Valid status (active/inactive) is required", st, 0)
  else
    match EOSApiService.updateUserStatus (some userId) status outcome st with
    | (.ok result, st') => (.passthrough result, st', 1)
    | (.error e, st') =>
        (.upstreamError (jsOrNat e.statusCode 500)
          (jsOrStr e.message "Failed to update user status")
          (jsOrNat e.statusCode 500), st', 1)

end RestApiServer

/-! ## Helper lemmas -/

theorem jsOrStr_of_ne (s d : String) (hs : s ≠ "") : jsOrStr s d = s :=
  if_neg hs

theorem jsOrNat_of_ne (n d : Nat) (hn : n ≠ 0) : jsOrNat n d = n :=
  if_neg hn

theorem jsOrStr_ne_empty (s d : String) (hd : d ≠ "") : jsOrStr s d ≠ "" := by
  unfold jsOrStr
  split
  · exact hd
  · assumption

theorem jsOrOptStr_ne_empty (m : Option String) (d : String) (hd : d ≠ "") :
    jsOrOptStr m d ≠ "" := by
  cases m with
  | none => exact hd
  | some s => exact jsOrStr_ne_empty s d hd

/-- The interceptor messages are never empty, so a handler's `error.message || default`
returns the interceptor message unchanged. -/
theorem jsOrStr_http_message (m : Option String) (d : String) :
    jsOrStr (jsOrOptStr m "API request failed") d = jsOrOptStr m "API request failed" :=
  jsOrStr_of_ne _ _ (jsOrOptStr_ne_empty m _ (by decide))

theorem jsOrStr_net_message (nm : String) (d : String) :
    jsOrStr (jsOrStr nm "Network error") d = jsOrStr nm "Network error" :=
  jsOrStr_of_ne _ _ (jsOrStr_ne_empty nm _ (by decide))

/-- On a 2xx outcome the adapter's login always returns the upstream body unchanged. -/
theorem login_ok_result (args : LoginRequest) (body : LoginResponse) (st : AdapterState) :
    (EOSApiService.login args (.ok body) st).1 = .ok body := by
  rcases body with ⟨bs, bm, bd, be⟩
  cases bd with
  | none => rfl
  | some d =>
      by_cases ht : d.token = "" <;> cases bs <;>
        simp [EOSApiService.login, EOSApiService.interceptResponse, ht]

/-- On a 2xx outcome the eos_login tool result is the success envelope with
the user mapped through and the token replaced by '***' exactly when truthy. -/
theorem loginHandler_ok_shape (args : LoginRequest) (body : LoginResponse) (st : AdapterState) :
    (MCPTools.loginHandler args (.ok body) st).1 =
      .success "Login successful"
        { user := body.data.map (fun d => d.user),
          token := body.data.bind (fun d => if d.token != "" then some "***" else none) } := by
  rcases body with ⟨bs, bm, bd, be⟩
  cases bd with
  | none => cases bs <;> rfl
  | some d =>
      by_cases ht : d.token = "" <;> cases bs <;>
        simp [MCPTools.loginHandler, EOSApiService.login, EOSApiService.interceptResponse, ht]

/-! ## Theorems -/

/-- On truthy credentials the REST login route forwards the 2xx login result
verbatim to its caller (`res.json(result)`), raw token included. -/
theorem restLogin_forwards (u p : String) (hu : u ≠ "") (hp : p ≠ "")
    (body : LoginResponse) (st : AdapterState) :
    (RestApiServer.restLogin (some u) (some p) (.ok body) st).1 = .passthrough body := by
  have h := login_ok_result { username := some u, password := some p } body st
  unfold RestApiServer.restLogin
  cases hL : EOSApiService.login { username := some u, password := some p } (.ok body) st with
  | mk r st2 =>
      rw [hL] at h
      simp only at h
      subst h
      simp [truthyStr, hu, hp]

/-- C2: whenever the upstream login response is a 2xx body whose data carries a
(truthy) token, the eos_login tool result is the success envelope whose data
has token equal to the placeholder "***" and the user record passed through;
moreover the result is independent of the raw token's value, so the raw token
string does not appear anywhere in the returned result. -/
theorem eos_login_tool_redacts_token
    (args : LoginRequest) (body : LoginResponse) (d : LoginData) (st : AdapterState)
    (hd : body.data = some d) (ht : d.token ≠ "") :
    (MCPTools.loginHandler args (.ok body) st).1 =
      .success "Login successful" { user := some d.user, token := some "***" } ∧
    (∀ t', t' ≠ "" →
      (MCPTools.loginHandler args (.ok { body with data := some { d with token := t' } }) st).1 =
        (MCPTools.loginHandler args (.ok body) st).1) := by
  have h1 := loginHandler_ok_shape args body st
  rw [hd] at h1
  constructor
  · rw [h1]
    simp [ht]
  · intro t' ht'
    have h2 := loginHandler_ok_shape args { body with data := some { d with token := t' } } st
    simp only at h2
    rw [h2, h1]
    simp [ht, ht']

/-- C2 witness: the spec's worked example, with the raw token "abc". -/
theorem eos_login_tool_redacts_token_witness :
    (MCPTools.loginHandler { username := some "mp5@eigital.com", password := some "Test@055" }
        (.ok { success := true,
               data := some { token := "abc",
                              user := { id := "1", username := "mp5@eigital.com",
                                        email := "mp5@eigital.com", role := "admin" } } })
        { authToken := none }).1 =
      .success "Login successful"
        { user := some { id := "1", username := "mp5@eigital.com",
                         email := "mp5@eigital.com", role := "admin" },
          token := some "***" } :=
  (eos_login_tool_redacts_token
    { username := some "mp5@eigital.com", password := some "Test@055" }
    { success := true,
      data := some { token := "abc",
                     user := { id := "1", username := "mp5@eigital.com",
                               email := "mp5@eigital.com", role := "admin" } } }
    { token := "abc",
      user := { id := "1", username := "mp5@eigital.com",
                email := "mp5@eigital.com", role := "admin" } }
    { authToken := none } rfl (by decide)).1

/-- C1 counterexample: with valid credentials and an upstream 2xx login body
carrying the token "abc", the REST dispatcher — a caller outside the Adapter —
receives the adapter's payload verbatim and sends the raw token "abc", not a
redacted placeholder, to its client. -/
theorem rest_login_exposes_raw_token_cex :
    (RestApiServer.restLogin (some "mp5@eigital.com") (some "Test@055")
        (.ok { success := true,
               data := some { token := "abc",
                              user := { id := "1", username := "mp5@eigital.com",
                                        email := "mp5@eigital.com", role := "admin" } } })
        { authToken := none }).1 =
      .passthrough { success := true,
                     data := some { token := "abc",
                                    user := { id := "1", username := "mp5@eigital.com",
                                              email := "mp5@eigital.com", role := "admin" } } } ∧
    "abc" ≠ "***" := by
  exact ⟨rfl, by decide⟩

/-- C1 (amended): the adapter's login returns the upstream payload unchanged,
raw token included, and the REST /auth/login route forwards that payload
verbatim to its caller; the redaction to the placeholder "***" happens only in
the eos_login tool handler, whose returned token field is always either absent
or the placeholder. -/
theorem login_token_redaction_at_tool_handler_only
    (creds : LoginRequest) (body : LoginResponse) (st : AdapterState)
    (u p : String) (hu : u ≠ "") (hp : p ≠ "") :
    (EOSApiService.login creds (.ok body) st).1 = .ok body ∧
    (MCPTools.tokenField (MCPTools.loginHandler creds (.ok body) st).1 = none ∨
     MCPTools.tokenField (MCPTools.loginHandler creds (.ok body) st).1 = some "***") ∧
    (RestApiServer.restLogin (some u) (some p) (.ok body) st).1 = .passthrough body := by
  refine ⟨login_ok_result creds body st, ?_, restLogin_forwards u p hu hp body st⟩
  rw [loginHandler_ok_shape creds body st]
  cases hb : body.data with
  | none => exact Or.inl rfl
  | some d =>
      by_cases ht : d.token = ""
      · exact Or.inl (by simp [MCPTools.tokenField, ht])
      · exact Or.inr (by simp [MCPTools.tokenField, ht])

/-- C1 amended witness: concrete instantiation at the spec's worked example. -/
theorem login_token_redaction_at_tool_handler_only_witness :
    (EOSApiService.login { username := some "u", password := some "p" }
        (.ok { success := true,
               data := some { token := "abc",
                              user := { id := "1", username := "u",
                                        email := "u@e.com", role := "admin" } } })
        { authToken := none }).1 =
      .ok { success := true,
            data := some { token := "abc",
                           user := { id := "1", username := "u",
                                     email := "u@e.com", role := "admin" } } } :=
  (login_token_redaction_at_tool_handler_only
    { username := some "u", password := some "p" }
    { success := true,
      data := some { token := "abc",
                     user := { id := "1", username := "u",
                               email := "u@e.com", role := "admin" } } }
    { authToken := none } "u" "p" (by decide) (by decide)).1

/-- C5: for every adapter method except healthCheck and every transport-level
failure, the failure is raised as the single uniform EOSApiError carrying
message and statusCode, where statusCode is the upstream HTTP status when a
response is available (httpError) and the sentinel 0 for a pure network
failure; no transport-specific failure shape escapes (the result type of each
method is Except EOSApiError). -/
theorem adapter_normalizes_transport_failures
    (s : Nat) (m : Option String) (nm : String)
    (creds : LoginRequest) (req : InviteUserRequest) (uid stat : Option String)
    (st : AdapterState) :
    (EOSApiService.login creds (.httpError s m) st).1
        = .error { message := jsOrOptStr m "API request failed", statusCode := s } ∧
    (EOSApiService.login creds (.networkError nm) st).1
        = .error { message := jsOrStr nm "Network error", statusCode := 0 } ∧
    (EOSApiService.getCurrentUser (.httpError s m) st).1
        = .error { message := jsOrOptStr m "API request failed", statusCode := s } ∧
    (EOSApiService.getCurrentUser (.networkError nm) st).1
        = .error { message := jsOrStr nm "Network error", statusCode := 0 } ∧
    (EOSApiService.getUsers (.httpError s m) st).1
        = .error { message := jsOrOptStr m "API request failed", statusCode := s } ∧
    (EOSApiService.getUsers (.networkError nm) st).1
        = .error { message := jsOrStr nm "Network error", statusCode := 0 } ∧
    (EOSApiService.inviteUser (α := String) req (.httpError s m) st).1
        = .error { message := jsOrOptStr m "API request failed", statusCode := s } ∧
    (EOSApiService.inviteUser (α := String) req (.networkError nm) st).1
        = .error { message := jsOrStr nm "Network error", statusCode := 0 } ∧
    (EOSApiService.updateUserStatus (α := String) uid stat (.httpError s m) st).1
        = .error { message := jsOrOptStr m "API request failed", statusCode := s } ∧
    (EOSApiService.updateUserStatus (α := String) uid stat (.networkError nm) st).1
        = .error { message := jsOrStr nm "Network error", statusCode := 0 } ∧
    (EOSApiService.deleteUser (α := String) uid (.httpError s m) st).1
        = .error { message := jsOrOptStr m "API request failed", statusCode := s } ∧
    (EOSApiService.deleteUser (α := String) uid (.networkError nm) st).1
        = .error { message := jsOrStr nm "Network error", statusCode := 0 } := by
  refine ⟨rfl, rfl, rfl, rfl, rfl, rfl, rfl, rfl, rfl, rfl, rfl, rfl⟩

/-- C3 counterexample: invoking the eos_invite_user registry handler with
empty required fields (email = "", role = "") performs the adapter call
(call count 1) and returns the success envelope — no local ValidationFailure
is produced at the handler boundary; likewise eos_update_user_status with both
required fields absent still calls the adapter. -/
theorem invite_handler_no_local_validation_cex :
    MCPTools.inviteUserHandler (α := String)
        { email := some "", role := some "", firstName := none, lastName := none }
        (.ok { success := true }) { authToken := none } =
      (.success "User invited successfully" { success := true }, { authToken := none }, 1) ∧
    MCPTools.updateUserStatusHandler (α := String) none none
        (.ok { success := true }) { authToken := none } =
      (.success "User status updated to undefined" { success := true },
        { authToken := none }, 1) := by
  exact ⟨rfl, rfl⟩

/-- C3 (amended): the registry handlers perform no local required-field
validation — every handler invokes the Adapter exactly once for every
argument, missing or empty required fields included; local validation that
rejects a request before any Adapter call exists only in the REST dispatcher's
routes (login: username/password truthiness; invite: email/role truthiness;
status update: membership of status in ['active','inactive']), which respond
400 with zero adapter calls. -/
theorem required_field_validation_only_in_rest :
    (∀ (args : LoginRequest) (outcome : HttpOutcome LoginResponse) (st : AdapterState),
        (MCPTools.loginHandler args outcome st).2.2 = 1) ∧
    (∀ (args : InviteUserRequest) (outcome : HttpOutcome (ApiResponse String))
        (st : AdapterState),
        (MCPTools.inviteUserHandler args outcome st).2.2 = 1) ∧
    (∀ (userId status : Option String) (outcome : HttpOutcome (ApiResponse String))
        (st : AdapterState),
        (MCPTools.updateUserStatusHandler userId status outcome st).2.2 = 1) ∧
    (∀ (userId : Option String) (outcome : HttpOutcome (ApiResponse String))
        (st : AdapterState),
        (MCPTools.deleteUserHandler userId outcome st).2.2 = 1) ∧
    (∀ (u p : Option String) (outcome : HttpOutcome LoginResponse) (st : AdapterState),
        truthyStr u = false ∨ truthyStr p = false →
        RestApiServer.restLogin u p outcome st
          = (.badRequest "Username and password are required", st, 0)) ∧
    (∀ (e r fn ln : Option String) (outcome : HttpOutcome (ApiResponse String))
        (st : AdapterState),
        truthyStr e = false ∨ truthyStr r = false →
        RestApiServer.restInviteUser e r fn ln outcome st
          = (.badRequest "Email and role are required", st, 0)) ∧
    (∀ (uid : String) (status : Option String) (outcome : HttpOutcome (ApiResponse String))
        (st : AdapterState),
        status ≠ some "active" → status ≠ some "inactive" →
        RestApiServer.restUpdateUserStatus uid status outcome st
          = (.badRequest "Valid status (active/inactive) is required", st, 0)) := by
  refine ⟨?_, ?_, ?_, ?_, ?_, ?_, ?_⟩
  · intro args outcome st
    unfold MCPTools.loginHandler
    cases hL : EOSApiService.login args outcome st with
    | mk r st2 => cases r <;> rfl
  · intro args outcome st
    cases outcome <;> rfl
  · intro userId status outcome st
    cases outcome <;> rfl
  · intro userId outcome st
    cases outcome <;> rfl
  · intro u p outcome st h
    unfold RestApiServer.restLogin
    rcases h with h | h <;> simp [h]
  · intro e r fn ln outcome st h
    unfold RestApiServer.restInviteUser
    rcases h with h | h <;> simp [h]
  · intro uid status outcome st h1 h2
    unfold RestApiServer.restUpdateUserStatus
    cases status with
    | none => simp [truthyStr]
    | some s =>
        have hs1 : s ≠ "active" := fun hs => h1 (by rw [hs])
        have hs2 : s ≠ "inactive" := fun hs => h2 (by rw [hs])
        simp [truthyStr, hs1, hs2]

/-- C3 amended witness: REST invite with an absent email responds 400 with
zero adapter calls. -/
theorem required_field_validation_only_in_rest_witness :
    RestApiServer.restInviteUser (α := String) none (some "user") none none
        (.ok { success := true }) { authToken := none }
      = (.badRequest "Email and role are required", { authToken := none }, 0) :=
  required_field_validation_only_in_rest.2.2.2.2.2.1 none (some "user") none none
    (.ok { success := true }) { authToken := none } (Or.inl rfl)

/-- C4 counterexample: on a pure network failure the adapter raises the
Upstream Error with the sentinel statusCode 0, but the eos_login handler's
envelope has error = 500 (the `error.statusCode || 500` default masks the
sentinel), not the Upstream Error's statusCode 0. -/
theorem handler_masks_network_sentinel_cex :
    (MCPTools.loginHandler { username := some "u", password := some "p" }
        (.networkError "connect ECONNREFUSED") { authToken := none }).1 =
      .failure "connect ECONNREFUSED" 500 ∧
    (EOSApiService.login { username := some "u", password := some "p" }
        (.networkError "connect ECONNREFUSED") { authToken := none }).1 =
      .error { message := "connect ECONNREFUSED", statusCode := 0 } ∧
    (500 : Nat) ≠ 0 := by
  exact ⟨rfl, rfl, by decide⟩

/-- C4 (amended): every registry handler converts an Upstream Error into the
envelope `{success:false, message, error}` without re-raising, where error
equals the Upstream Error's statusCode whenever that statusCode is nonzero
(i.e. for every upstream HTTP status); the network-failure sentinel
statusCode 0 is falsy in JS, so `error.statusCode || 500` reports it as 500
instead. -/
theorem handlers_wrap_upstream_errors
    (s : Nat) (hs : s ≠ 0) (m : Option String) (nm : String) (st : AdapterState)
    (creds : LoginRequest) (req : InviteUserRequest) (uid stat : Option String) :
    (MCPTools.loginHandler creds (.httpError s m) st).1
        = .failure (jsOrOptStr m "API request failed") s ∧
    (MCPTools.loginHandler creds (.networkError nm) st).1
        = .failure (jsOrStr nm "Network error") 500 ∧
    (MCPTools.getCurrentUserHandler (.httpError s m) st).1
        = .failure (jsOrOptStr m "API request failed") s ∧
    (MCPTools.getCurrentUserHandler (.networkError nm) st).1
        = .failure (jsOrStr nm "Network error") 500 ∧
    (MCPTools.getUsersHandler (.httpError s m) st).1
        = .failure (jsOrOptStr m "API request failed") s ∧
    (MCPTools.getUsersHandler (.networkError nm) st).1
        = .failure (jsOrStr nm "Network error") 500 ∧
    (MCPTools.inviteUserHandler (α := String) req (.httpError s m) st).1
        = .failure (jsOrOptStr m "API request failed") s ∧
    (MCPTools.inviteUserHandler (α := String) req (.networkError nm) st).1
        = .failure (jsOrStr nm "Network error") 500 ∧
    (MCPTools.updateUserStatusHandler (α := String) uid stat (.httpError s m) st).1
        = .failure (jsOrOptStr m "API request failed") s ∧
    (MCPTools.updateUserStatusHandler (α := String) uid stat (.networkError nm) st).1
        = .failure (jsOrStr nm "Network error") 500 ∧
    (MCPTools.deleteUserHandler (α := String) uid (.httpError s m) st).1
        = .failure (jsOrOptStr m "API request failed") s ∧
    (MCPTools.deleteUserHandler (α := String) uid (.networkError nm) st).1
        = .failure (jsOrStr nm "Network error") 500 := by
  have hh := jsOrStr_http_message m
  have hn := jsOrStr_net_message nm
  have hje : jsOrNat s 500 = s := jsOrNat_of_ne s 500 hs
  refine ⟨?_, ?_, ?_, ?_, ?_, ?_, ?_, ?_, ?_, ?_, ?_, ?_⟩ <;>
    simp [MCPTools.loginHandler, MCPTools.getCurrentUserHandler, MCPTools.getUsersHandler,
      MCPTools.inviteUserHandler, MCPTools.updateUserStatusHandler, MCPTools.deleteUserHandler,
      EOSApiService.login, EOSApiService.getCurrentUser, EOSApiService.getUsers,
      EOSApiService.inviteUser, EOSApiService.updateUserStatus, EOSApiService.deleteUser,
      EOSApiService.interceptResponse, Except.map, hh, hn, hje, hs, jsOrNat]

/-- C4 amended witness: a 401 upstream rejection of eos_login yields the
failure envelope carrying 401. -/
theorem handlers_wrap_upstream_errors_witness :
    (MCPTools.loginHandler { username := some "u", password := some "p" }
        (.httpError 401 (some "Invalid credentials")) { authToken := none }).1
      = .failure "Invalid credentials" 401 :=
  (handlers_wrap_upstream_errors 401 (by decide) (some "Invalid credentials") "x"
    { authToken := none } { username := some "u", password := some "p" }
    { email := none, role := none } none none).1

/-- C8: healthCheck is total over all upstream outcomes: it returns true on a
2xx response and false on every failure (non-2xx and pure network failure);
its return type is Bool, so it never raises, and it leaves the state unchanged. -/
theorem healthCheck_total_never_raises
    (s : Nat) (m : Option String) (nm : String) (st : AdapterState) :
    EOSApiService.healthCheck (.ok ()) st = (true, st) ∧
    EOSApiService.healthCheck (.httpError s m) st = (false, st) ∧
    EOSApiService.healthCheck (.networkError nm) st = (false, st) := by
  refine ⟨rfl, rfl, rfl⟩

/-- C6 counterexample: clearAuthToken and setAuthToken are Adapter methods
other than login, and both mutate the stored Session Token. -/
theorem clear_and_set_token_mutate_state_cex :
    EOSApiService.clearAuthToken { authToken := some "abc" } ≠ { authToken := some "abc" } ∧
    EOSApiService.setAuthToken "xyz" { authToken := none } ≠ { authToken := none } := by
  constructor <;> decide

/-- C6 (amended): the stored Session Token changes only as a side effect of a
successful login whose 2xx response carries a truthy token, or through the
explicit setAuthToken/clearAuthToken mutators; every upstream-calling method
other than login leaves the Adapter state unchanged, and a login that fails
(raises an Upstream Error) or whose response does not carry a stored token
leaves the authenticated/unauthenticated state unchanged. -/
theorem adapter_state_mutation_discipline
    (creds : LoginRequest) (body : LoginResponse) (d : LoginData)
    (s : Nat) (m : Option String) (nm : String) (st : AdapterState) (t : String) :
    (EOSApiService.login creds (.httpError s m) st).2 = st ∧
    (EOSApiService.login creds (.networkError nm) st).2 = st ∧
    (body.data = some d → body.success = true → d.token ≠ "" →
        (EOSApiService.login creds (.ok body) st).2
          = EOSApiService.setAuthToken d.token st) ∧
    (body.data = some d → body.success = false →
        (EOSApiService.login creds (.ok body) st).2 = st) ∧
    (body.data = some d → d.token = "" →
        (EOSApiService.login creds (.ok body) st).2 = st) ∧
    (body.data = none → (EOSApiService.login creds (.ok body) st).2 = st) ∧
    (∀ o : HttpOutcome (ApiResponse User), (EOSApiService.getCurrentUser o st).2 = st) ∧
    (∀ o : HttpOutcome (ApiResponse (List User)), (EOSApiService.getUsers o st).2 = st) ∧
    (∀ (req : InviteUserRequest) (o : HttpOutcome (ApiResponse String)),
        (EOSApiService.inviteUser req o st).2 = st) ∧
    (∀ (uid stat : Option String) (o : HttpOutcome (ApiResponse String)),
        (EOSApiService.updateUserStatus uid stat o st).2 = st) ∧
    (∀ (uid : Option String) (o : HttpOutcome (ApiResponse String)),
        (EOSApiService.deleteUser uid o st).2 = st) ∧
    (∀ o : HttpOutcome Unit, (EOSApiService.healthCheck o st).2 = st) ∧
    EOSApiService.setAuthToken t st = { authToken := some t } ∧
    EOSApiService.clearAuthToken st = { authToken := none } := by
  refine ⟨rfl, rfl, ?_, ?_, ?_, ?_, fun o => rfl, fun o => rfl, fun req o => rfl,
    fun uid stat o => rfl, fun uid o => rfl, fun o => by cases o <;> rfl, rfl, rfl⟩
  · intro hd hsucc ht
    rcases body with ⟨bs, bm, bd, be⟩
    dsimp only at hd hsucc
    subst hd
    subst hsucc
    simp [EOSApiService.login, EOSApiService.interceptResponse, ht]
  · intro hd hsucc
    rcases body with ⟨bs, bm, bd, be⟩
    dsimp only at hd hsucc
    subst hd
    subst hsucc
    simp [EOSApiService.login, EOSApiService.interceptResponse]
  · intro hd ht
    rcases body with ⟨bs, bm, bd, be⟩
    dsimp only at hd
    subst hd
    cases bs <;> simp [EOSApiService.login, EOSApiService.interceptResponse, ht]
  · intro hd
    rcases body with ⟨bs, bm, bd, be⟩
    dsimp only at hd
    subst hd
    rfl

/-- C6 amended witness: a successful login with token "abc" from the
unauthenticated state stores exactly that token. -/
theorem adapter_state_mutation_discipline_witness :
    (EOSApiService.login { username := some "u", password := some "p" }
        (.ok { success := true,
               data := some { token := "abc",
                              user := { id := "1", username := "u",
                                        email := "u@e.com", role := "admin" } } })
        { authToken := none }).2 = { authToken := some "abc" } :=
  (adapter_state_mutation_discipline
    { username := some "u", password := some "p" }
    { success := true,
      data := some { token := "abc",
                     user := { id := "1", username := "u",
                               email := "u@e.com", role := "admin" } } }
    { token := "abc",
      user := { id := "1", username := "u", email := "u@e.com", role := "admin" } }
    0 none "" { authToken := none } "").2.2.1 rfl rfl (by decide)

/-- C7 counterexample: a REST invite request whose role "superadmin" lies
outside the declared closed set is accepted by the local validation (presence
check only) and forwarded upstream (adapter call count 1) instead of failing
locally. -/
theorem invite_role_outside_enum_forwarded_cex :
    RestApiServer.restInviteUser (α := String) (some "a@b.c") (some "superadmin") none none
        (.ok { success := true }) { authToken := none } =
      (.passthrough { success := true }, { authToken := none }, 1) ∧
    "superadmin" ∉ MCPTools.inviteUserToolRoleEnum := by
  exact ⟨rfl, by decide⟩

/-- C7 (amended): the closed role set ['admin','manager','user'] appears only
as the enum of the role property in the eos_invite_user tool's declared input
schema; neither transport enforces membership: the REST route checks only
email/role truthiness and forwards any truthy role to the Adapter, the
registry handler always calls the Adapter, and the Adapter's inviteUser
forwards the request without inspecting the role. -/
theorem invite_role_enum_schema_metadata_only
    (e r fn ln : Option String) (he : truthyStr e = true) (hr : truthyStr r = true)
    (outcome : HttpOutcome (ApiResponse String)) (st : AdapterState)
    (args : InviteUserRequest) :
    MCPTools.inviteUserToolRoleEnum = ["admin", "manager", "user"] ∧
    (RestApiServer.restInviteUser e r fn ln outcome st).2.2 = 1 ∧
    (MCPTools.inviteUserHandler args outcome st).2.2 = 1 ∧
    (EOSApiService.inviteUser args outcome st).1 = EOSApiService.interceptResponse outcome := by
  refine ⟨rfl, ?_, ?_, rfl⟩
  · unfold RestApiServer.restInviteUser
    simp only [he, hr, Bool.not_true, Bool.or_self, Bool.false_eq_true, if_false]
    cases outcome <;> rfl
  · cases outcome <;> rfl

/-- C7 amended witness: a truthy role outside the enum is forwarded. -/
theorem invite_role_enum_schema_metadata_only_witness :
    (RestApiServer.restInviteUser (α := String) (some "a@b.c") (some "owner") none none
        (.httpError 422 (some "bad role")) { authToken := none }).2.2 = 1 :=
  (invite_role_enum_schema_metadata_only (some "a@b.c") (some "owner") none none
    rfl rfl (.httpError 422 (some "bad role")) { authToken := none }
    { email := some "a@b.c", role := some "owner" }).2.1

/-- C9: a 2xx response to getUsers whose body has no data field yields the
empty list of users as a success, not an error. -/
theorem getUsers_missing_data_yields_empty
    (success : Bool) (message error : Option String) (st : AdapterState) :
    EOSApiService.getUsers
        (.ok { success := success, message := message, data := none, error := error }) st
      = (.ok [], st) := by
  rfl

/-- C10: a 2xx response to getCurrentUser whose body lacks a data field
resolves successfully with an absent user value (the TS non-null assertion is
erased at run time), so the result can carry no user record. -/
theorem getCurrentUser_missing_data_resolves_none
    (success : Bool) (message error : Option String) (st : AdapterState) :
    EOSApiService.getCurrentUser
        (.ok { success := success, message := message, data := none, error := error }) st
      = (.ok none, st) := by
  rfl
